import Mathlib

/-!
Verification of the per-user negotiation core of the scheduling agent
(`agente.py`) and the availability/suggestion tools
(`google_calendar_tools.py`).

Modelling conventions (shallow embedding):

* Instants are minutes on a linear timeline (`Int`).  The source builds
  zoned datetimes with a constant timezone (`TIMEZONE_BRAZIL`) via
  `pytz.localize`, serialises them with `isoformat()` and parses them back
  with `fromisoformat()`; this round trip is lossless, the timezone is a
  fixed constant for every call, and all arithmetic is `timedelta` addition
  on the same tzinfo, so the absolute timeline in minutes is a faithful
  model.  `datetime.timedelta(hours=1)` is `+ 60`, `timedelta(minutes=o)`
  is `+ o`.
* The calendar collaborator is an oracle: `isFree : Int → Int → Bool`
  models `verificar_disponibilidade`'s backend answer over an interval,
  `criarLink : String → Int → Int → String` models the html link returned
  by `criar_evento`, `search : String → List (String × String)` models the
  keyword query (already formatted `titulo`/`data_hora` rows).
* Every effectful function returns a `TurnResult`: the list of
  `send_message` texts sent (abstracted to a `Msg` datatype whose
  constructors are in one-to-one correspondence with the distinct message
  texts of the source), the list of calendar-collaborator calls made, and
  the user's entry of `user_context_storage` afterwards (`none` models key
  absence).
* `user_context_storage[chat_id]` values are Python dicts; the reachable
  shapes are `{'summary': s, 'suggestions': m}` (from `execute_agendamento`),
  `{'action': 'awaiting_time_selection', 'suggestions': m}` (from
  `execute_verificacao`) and `{'action': 'awaiting_title',
  'chosen_time_iso': t}` (from `handle_follow_up`).  `ContextData` is the
  record of the optional fields these dicts use; `.get` on a missing key is
  the `none` field value.  `chosen_time_iso`/`suggestions` are only read on
  paths where the corresponding store always set them, so they are modelled
  as total fields with inert placeholders (`0`, `[]`) at the stores that do
  not set them.
* Python string helpers (`str.strip`, `str.isdigit`, `int()`,
  `str.split`, `datetime.strptime('%Y-%m-%d')`, `datetime.time(h, m)`)
  are embedded below over `List Char`.  `isdigit` and the Telegram filter
  regex `^\d+$` are modelled over ASCII digits (the suggestion labels the
  code produces and compares against are always ASCII).
-/

/-- A call made to the calendar collaborator.
`checkFree` is `verificar_disponibilidade(start, end)`,
`create` is `criar_evento(summary, start, end)`,
`search` is the `events().list(..., q=clean_keyword)` query issued by
`obter_eventos_por_palavra_chave`. -/
inductive CalCall where
  | checkFree (inicio fim : Int)
  | create (summary : String) (inicio fim : Int)
  | search (q : String)
deriving DecidableEq, Repr

/-- Outbound messages of `agente.py`, one constructor per distinct
`send_message` text (payloads are the interpolated data). -/
inductive Msg where
  /-- "✅ Perfeito! O evento '<resumo>' foi agendado para ... Veja no seu calendário: <link>" -/
  | perfeitoAgendado (resumo : String) (inicio : Int) (link : String)
  /-- "❌ O horário solicitado (...) está ocupado. Que tal uma dessas opções: ..." -/
  | ocupadoComSugestoes (inicio : Int) (opcoes : List (String × Int))
  /-- "❌ O horário solicitado está ocupado e não consegui encontrar horários livres próximos." -/
  | ocupadoSemSugestoes
  /-- "Houve um erro na conversão dos dados do agendamento. Tente um formato de data/hora mais claro." -/
  | erroConversaoAgendamento
  /-- "✅ **Confirmado!** Você está livre no dia <data>." -/
  | confirmadoLivre (inicio : Int)
  /-- "❌ Ocupado. ... Encontrei disponibilidade para: ... Responda com o número ..." -/
  | ocupadoComSugestoesVerificacao (inicio : Int) (opcoes : List (String × Int))
  /-- "❌ Ocupado. ... não encontrei horários livres nas horas seguintes." -/
  | ocupadoSemSugestoesVerificacao (inicio : Int)
  /-- "Houve um erro na conversão da data/hora. Tente um formato mais claro." -/
  | erroConversaoVerificacao
  /-- "✅ Agendamento Confirmado! O evento '<summary>' foi marcado para as ... Veja: <link>" -/
  | agendamentoConfirmado (summary : String) (inicio : Int) (link : String)
  /-- "Ótimo! Horário selecionado. Agora, **qual será o título/resumo** deste evento?" -/
  | pedirTitulo
  /-- "Opção inválida. Por favor, responda apenas com o número da opção (ex: '1', '2', etc.)." -/
  | opcaoInvalida
  /-- "Encontrei os seguintes eventos futuros sobre '<keyword>': ..." -/
  | eventosEncontrados (keyword : String) (eventos : List (String × String))
  /-- "Não encontrei eventos futuros para '<keyword>'." -/
  | nenhumEventoEncontrado (keyword : String)
  /-- "Não consegui extrair a palavra-chave para consulta." -/
  | semPalavraChave
  /-- "Não consegui processar sua solicitação. Tente de novo." -/
  | naoConseguiProcessar
  /-- "Desculpe, não entendi se você quer agendar ou consultar um evento. ..." -/
  | naoEntendi
deriving DecidableEq, Repr

/-- One user's value in `user_context_storage`, as the record of the
optional dict keys the code reads (`.get('action')`, `'summary' in d`,
`d['suggestions']`, `d['chosen_time_iso']`). -/
structure ContextData where
  action : Option String
  summary : Option String
  suggestions : List (String × Int)
  chosen_time_iso : Int
deriving DecidableEq, Repr

/-- Observable outcome of processing one inbound text for one user:
messages sent, calendar calls made, the user's stored context afterwards. -/
structure TurnResult where
  replies : List Msg
  calls : List CalCall
  state : Option ContextData
deriving DecidableEq, Repr

/-- The `agendamento` entity dict extracted by the classifier
(`titulo` / `data` / `hora` optional string fields). -/
structure Entidades where
  titulo : Option String
  data : Option String
  hora : Option String
deriving DecidableEq, Repr

/-- The classifier's decision JSON: `action`, optional `agendamento`
entity dict, optional `consulta` keyword. -/
structure Decision where
  action : Option String
  agendamento : Option Entidades
  consulta : Option String
deriving DecidableEq, Repr

/-- Python `str.strip()`: drop leading and trailing whitespace. -/
def py_strip (s : String) : String :=
  String.mk (((s.toList.dropWhile Char.isWhitespace).reverse.dropWhile
      Char.isWhitespace).reverse)

/-- Python `str.isdigit()` on ASCII: nonempty and all decimal digits. -/
def py_isdigit (s : String) : Bool :=
  !s.toList.isEmpty && s.toList.all Char.isDigit

/-- The Telegram registration filter `filters.Regex(r'^\d+$')`: the whole
message is one or more digits. -/
def regex_digitos (s : String) : Bool :=
  !s.toList.isEmpty && s.toList.all Char.isDigit

/-- Decimal value of a digit list (used after an all-digits check). -/
def digitos_para_nat (cs : List Char) : Nat :=
  cs.foldl (fun a c => a * 10 + (c.toNat - 48)) 0

/-- Python `int(s)` restricted to what the code can meet: optional
whitespace around an optional sign and digits. -/
def py_int (s : String) : Option Int :=
  match (py_strip s).toList with
  | '+' :: resto =>
    if !resto.isEmpty && resto.all Char.isDigit then
      some (Int.ofNat (digitos_para_nat resto))
    else none
  | '-' :: resto =>
    if !resto.isEmpty && resto.all Char.isDigit then
      some (-(Int.ofNat (digitos_para_nat resto)))
    else none
  | cs =>
    if !cs.isEmpty && cs.all Char.isDigit then
      some (Int.ofNat (digitos_para_nat cs))
    else none

/-- Python `str.split(sep)` (single-character separator) over the
character list: `"" → [""]`, separators delimit possibly-empty groups. -/
def split_lista (sep : Char) : List Char → List (List Char)
  | [] => [[]]
  | c :: resto =>
    let r := split_lista sep resto
    if c = sep then [] :: r
    else
      match r with
      | [] => [[c]]
      | g :: gs => (c :: g) :: gs

/-- Python `str.split(sep)` on strings. -/
def py_split (sep : Char) (s : String) : List String :=
  (split_lista sep s.toList).map String.mk

/-- Gregorian leap year, as `calendar.isleap` / `datetime` use it. -/
def ano_bissexto (y : Nat) : Bool :=
  (y % 4 == 0 && y % 100 != 0) || (y % 400 == 0)

/-- Days in month `m` of year `y`. -/
def dias_no_mes (y m : Nat) : Nat :=
  if m = 2 then (if ano_bissexto y then 29 else 28)
  else if m = 4 ∨ m = 6 ∨ m = 9 ∨ m = 11 then 30
  else 31

/-- `datetime.datetime.strptime(s, '%Y-%m-%d').date()`: three dash-separated
digit groups forming a valid proleptic-Gregorian calendar date. -/
def parse_data_Ymd (s : String) : Option (Nat × Nat × Nat) :=
  match py_split '-' s with
  | [ys, ms, ds] =>
    if !ys.toList.isEmpty && ys.toList.all Char.isDigit &&
       !ms.toList.isEmpty && ms.toList.all Char.isDigit &&
       !ds.toList.isEmpty && ds.toList.all Char.isDigit then
      let y := digitos_para_nat ys.toList
      let m := digitos_para_nat ms.toList
      let d := digitos_para_nat ds.toList
      if 1 ≤ y ∧ y ≤ 9999 ∧ 1 ≤ m ∧ m ≤ 12 ∧ 1 ≤ d ∧ d ≤ dias_no_mes y m then
        some (y, m, d)
      else none
    else none
  | _ => none

/-- `hora, minuto = map(int, s.split(':'))` followed by
`datetime.time(hora, minuto)` (which raises unless 0 ≤ h ≤ 23 and
0 ≤ m ≤ 59). -/
def parse_hora_minuto (s : String) : Option (Int × Int) :=
  match py_split ':' s with
  | [hs, ms] =>
    match py_int hs, py_int ms with
    | some hora, some minuto =>
      if 0 ≤ hora ∧ hora ≤ 23 ∧ 0 ≤ minuto ∧ minuto ≤ 59 then
        some (hora, minuto)
      else none
    | _, _ => none
  | _ => none

/-- Days before month `m` in year `y`. -/
def dias_antes_do_mes (y m : Nat) : Nat :=
  (List.range (m - 1)).foldl (fun acc i => acc + dias_no_mes y (i + 1)) 0

/-- Proleptic Gregorian ordinal of a date, as `datetime.date.toordinal`. -/
def toordinal (y m d : Nat) : Int :=
  Int.ofNat (365 * (y - 1) + (y - 1) / 4 - (y - 1) / 100 + (y - 1) / 400 +
    dias_antes_do_mes y m + d)

/-- `fuso_brasil.localize(datetime.combine(date, time))` on the minute
timeline.  The timezone is the constant `TIMEZONE_BRAZIL` for every call,
so its fixed offset is dropped (it cancels in every comparison and
difference this core makes). -/
def instante_local (y m d : Nat) (hora minuto : Int) : Int :=
  toordinal y m d * 1440 + hora * 60 + minuto

/-- The `try:` block of `execute_agendamento` (lines 142-159): truthiness
checks on `entidades`, `titulo`, `hora`; `entidades["data"].strip()`
(a missing key raises, caught by the same `except`); `strptime`; the
`hora` split; `localize(combine(...))`.  Returns the summary and the
start instant, or `none` when any step raises. -/
def valida_agendamento (entidades : Option Entidades) : Option (String × Int) :=
  match entidades with
  | none => none
  | some e =>
    match e.titulo, e.hora with
    | some resumo, some hora_str =>
      if resumo = "" ∨ hora_str = "" then none
      else
        match e.data with
        | none => none
        | some data_str =>
          match parse_data_Ymd (py_strip data_str), parse_hora_minuto hora_str with
          | some (y, m, d), some (hora, minuto) =>
            some (resumo, instante_local y m d hora minuto)
          | _, _ => none
    | _, _ => none

/-- The `try:` block of `execute_verificacao` (lines 208-222): truthiness
checks on `entidades`, `data`, `hora`, then the same conversion as
`valida_agendamento` without a title. -/
def valida_verificacao (entidades : Option Entidades) : Option Int :=
  match entidades with
  | none => none
  | some e =>
    match e.data, e.hora with
    | some data_str, some hora_str =>
      if data_str = "" ∨ hora_str = "" then none
      else
        match parse_data_Ymd (py_strip data_str), parse_hora_minuto hora_str with
        | some (y, m, d), some (hora, minuto) =>
          some (instante_local y m d hora minuto)
        | _, _ => none
    | _, _ => none

/-- The loop body of `sugerir_horarios`: for each offset, compute
`new_start = start + offset`, `new_end = new_start + 1h`, query
`verificar_disponibilidade`, and keep the free starts.  Returns the
free/busy calls made (in evaluation order) and the kept starts. -/
def sugerir_horarios_loop (isFree : Int → Int → Bool) (start_time_dt : Int) :
    List Int → List CalCall × List Int
  | [] => ([], [])
  | offset :: resto =>
    let new_start_time := start_time_dt + offset
    let new_end_time := new_start_time + 60
    let r := sugerir_horarios_loop isFree start_time_dt resto
    (CalCall.checkFree new_start_time new_end_time :: r.1,
     if isFree new_start_time new_end_time then new_start_time :: r.2 else r.2)

/-- `sugerir_horarios(start_time_iso, end_time_iso)`
(`google_calendar_tools.py` lines 128-154): tries offsets 30, 60, 90
minutes after the original start; `end_time_iso` is accepted but never
read by the body. -/
def sugerir_horarios (isFree : Int → Int → Bool)
    (start_time_iso end_time_iso : Int) : List CalCall × List Int :=
  sugerir_horarios_loop isFree start_time_iso [30, 60, 90]

/-- The `for i, iso_time in enumerate(sugestoes): suggestion_map[f"{i+1}"] = iso_time`
loop shared by `execute_agendamento` and `execute_verificacao`. -/
def monta_sugestoes (sugestoes : List Int) : List (String × Int) :=
  sugestoes.enum.map (fun p => (toString (p.1 + 1), p.2))

/-- The dict `{'summary': resumo, 'suggestions': suggestion_map}` stored by
`execute_agendamento` line 189.  Note: no `'action'` key. -/
def ctx_agendamento (resumo : String) (suggestion_map : List (String × Int)) :
    ContextData :=
  { action := none, summary := some resumo, suggestions := suggestion_map,
    chosen_time_iso := 0 }

/-- The dict `{'action': 'awaiting_time_selection', 'suggestions': m}`
stored by `execute_verificacao` lines 250-253.  Note: no `'summary'` key. -/
def ctx_verificacao (suggestion_map : List (String × Int)) : ContextData :=
  { action := some "awaiting_time_selection", summary := none,
    suggestions := suggestion_map, chosen_time_iso := 0 }

/-- The dict `{'action': 'awaiting_title', 'chosen_time_iso': t}` stored by
`handle_follow_up` lines 320-323. -/
def ctx_awaiting_title (chosen_time_iso : Int) : ContextData :=
  { action := some "awaiting_title", summary := none, suggestions := [],
    chosen_time_iso := chosen_time_iso }

/-- `execute_agendamento` (`agente.py` lines 135-200). -/
def execute_agendamento (isFree : Int → Int → Bool)
    (criarLink : String → Int → Int → String)
    (entidades : Option Entidades) (st : Option ContextData) : TurnResult :=
  match valida_agendamento entidades with
  | none =>
    { replies := [Msg.erroConversaoAgendamento], calls := [], state := st }
  | some (resumo, inicio_iso) =>
    let fim_iso := inicio_iso + 60
    if isFree inicio_iso fim_iso then
      let link_evento := criarLink resumo inicio_iso fim_iso
      { replies := [Msg.perfeitoAgendado resumo inicio_iso link_evento],
        calls := [CalCall.checkFree inicio_iso fim_iso,
                  CalCall.create resumo inicio_iso fim_iso],
        state := st }
    else
      let r := sugerir_horarios isFree inicio_iso fim_iso
      match r.2 with
      | [] =>
        { replies := [Msg.ocupadoSemSugestoes],
          calls := CalCall.checkFree inicio_iso fim_iso :: r.1, state := st }
      | sugestoes =>
        let suggestion_map := monta_sugestoes sugestoes
        { replies := [Msg.ocupadoComSugestoes inicio_iso suggestion_map],
          calls := CalCall.checkFree inicio_iso fim_iso :: r.1,
          state := some (ctx_agendamento resumo suggestion_map) }

/-- `execute_verificacao` (`agente.py` lines 202-266). -/
def execute_verificacao (isFree : Int → Int → Bool)
    (criarLink : String → Int → Int → String)
    (entidades : Option Entidades) (st : Option ContextData) : TurnResult :=
  match valida_verificacao entidades with
  | none =>
    { replies := [Msg.erroConversaoVerificacao], calls := [], state := st }
  | some inicio_iso =>
    let fim_iso := inicio_iso + 60
    if isFree inicio_iso fim_iso then
      { replies := [Msg.confirmadoLivre inicio_iso],
        calls := [CalCall.checkFree inicio_iso fim_iso], state := st }
    else
      let r := sugerir_horarios isFree inicio_iso fim_iso
      match r.2 with
      | [] =>
        { replies := [Msg.ocupadoSemSugestoesVerificacao inicio_iso],
          calls := CalCall.checkFree inicio_iso fim_iso :: r.1, state := st }
      | sugestoes =>
        let suggestion_map := monta_sugestoes sugestoes
        { replies := [Msg.ocupadoComSugestoesVerificacao inicio_iso suggestion_map],
          calls := CalCall.checkFree inicio_iso fim_iso :: r.1,
          state := some (ctx_verificacao suggestion_map) }

/-- Decomposition table for `unicodedata.normalize('NFD', ·)` on the Latin
letters with diacritics this bot's language uses (each decomposes into the
base letter followed by a combining mark; the mark, being non-ASCII, is
dropped by the next step regardless of which mark it is, so one
representative combining code point stands for all of them).  Other
characters are their own NFD form. -/
def tabela_nfd : List (Char × Char) :=
  [('á', 'a'), ('à', 'a'), ('â', 'a'), ('ã', 'a'), ('ä', 'a'),
   ('é', 'e'), ('è', 'e'), ('ê', 'e'), ('ë', 'e'),
   ('í', 'i'), ('ì', 'i'), ('î', 'i'), ('ï', 'i'),
   ('ó', 'o'), ('ò', 'o'), ('ô', 'o'), ('õ', 'o'), ('ö', 'o'),
   ('ú', 'u'), ('ù', 'u'), ('û', 'u'), ('ü', 'u'),
   ('ç', 'c'), ('ñ', 'n'),
   ('Á', 'A'), ('À', 'A'), ('Â', 'A'), ('Ã', 'A'), ('Ä', 'A'),
   ('É', 'E'), ('È', 'E'), ('Ê', 'E'), ('Ë', 'E'),
   ('Í', 'I'), ('Ì', 'I'), ('Î', 'I'), ('Ï', 'I'),
   ('Ó', 'O'), ('Ò', 'O'), ('Ô', 'O'), ('Õ', 'O'), ('Ö', 'O'),
   ('Ú', 'U'), ('Ù', 'U'), ('Û', 'U'), ('Ü', 'U'),
   ('Ç', 'C'), ('Ñ', 'N')]

/-- NFD decomposition of one character per `tabela_nfd`. -/
def nfd_decompose (c : Char) : List Char :=
  match tabela_nfd.lookup c with
  | some base => [base, Char.ofNat 769]
  | none => [c]

/-- `.encode('ascii', 'ignore')`: keep only code points below 128. -/
def filtro_ascii (cs : List Char) : List Char :=
  cs.filter (fun c => c.toNat < 128)

/-- `.lower()` on a string that the previous step reduced to ASCII
(so it is the ASCII case map). -/
def ascii_lower (c : Char) : Char :=
  if 65 ≤ c.toNat ∧ c.toNat ≤ 90 then Char.ofNat (c.toNat + 32) else c

/-- `normalize_keyword` (`google_calendar_tools.py` lines 24-32):
NFD-normalize, drop non-ASCII, lowercase. -/
def normalize_keyword (keyword : String) : String :=
  String.mk (((keyword.toList.flatMap nfd_decompose).filter
    (fun c => c.toNat < 128)).map ascii_lower)

/-- `obter_eventos_por_palavra_chave` (`google_calendar_tools.py` lines
156-207): normalize the keyword, then issue the keyword query; the
time-window bound, result cap and display formatting happen inside the
collaborator call and its post-processing, abstracted into the `search`
oracle's output rows. -/
def obter_eventos_por_palavra_chave (search : String → List (String × String))
    (keyword : String) : List CalCall × List (String × String) :=
  let clean_keyword := normalize_keyword keyword
  ([CalCall.search clean_keyword], search clean_keyword)

/-- `execute_consulta` (`agente.py` lines 113-132).  `keyword` is
`decision.get('consulta')`; `if not keyword` is true for a missing key and
for the empty string. -/
def execute_consulta (search : String → List (String × String))
    (keyword : Option String) (st : Option ContextData) : TurnResult :=
  match keyword with
  | none => { replies := [Msg.semPalavraChave], calls := [], state := st }
  | some kw =>
    if kw = "" then
      { replies := [Msg.semPalavraChave], calls := [], state := st }
    else
      let r := obter_eventos_por_palavra_chave search kw
      match r.2 with
      | [] =>
        { replies := [Msg.nenhumEventoEncontrado kw], calls := r.1, state := st }
      | eventos =>
        { replies := [Msg.eventosEncontrados kw eventos], calls := r.1,
          state := st }

/-- `handle_follow_up` (`agente.py` lines 278-338).  The returned `Bool` is
the handler's Python return value (which the Telegram dispatcher ignores,
see `process_update`). -/
def handle_follow_up (isFree : Int → Int → Bool)
    (criarLink : String → Int → Int → String)
    (text : String) (st : Option ContextData) : Bool × TurnResult :=
  let user_response := py_strip text
  match st with
  | none => (false, { replies := [], calls := [], state := st })
  | some context_data =>
    if context_data.action = some "awaiting_time_selection" ∧
        py_isdigit user_response = true then
      match context_data.suggestions.lookup user_response with
      | some chosen_iso_time =>
        match context_data.summary with
        | some summary =>
          let chosen_end_dt := chosen_iso_time + 60
          let link := criarLink summary chosen_iso_time chosen_end_dt
          (true,
           { replies := [Msg.agendamentoConfirmado summary chosen_iso_time link],
             calls := [CalCall.create summary chosen_iso_time chosen_end_dt],
             state := none })
        | none =>
          (true,
           { replies := [Msg.pedirTitulo], calls := [],
             state := some (ctx_awaiting_title chosen_iso_time) })
      | none =>
        (true, { replies := [Msg.opcaoInvalida], calls := [], state := st })
    else
      (false, { replies := [], calls := [], state := st })

/-- The Gemini-dispatch tail of `handle_messages` (`agente.py` lines
372-398).  `gemini` models `analisar_e_decidir_acao_com_gemini` (`none`
is its error return). -/
def despacha_gemini (isFree : Int → Int → Bool)
    (criarLink : String → Int → Int → String)
    (search : String → List (String × String))
    (gemini : String → Option Decision)
    (full_message : String) (st : Option ContextData) : TurnResult :=
  match gemini full_message with
  | none => { replies := [Msg.naoConseguiProcessar], calls := [], state := st }
  | some decision =>
    if decision.action = some "agendar" then
      execute_agendamento isFree criarLink decision.agendamento st
    else if decision.action = some "verificar" then
      execute_verificacao isFree criarLink decision.agendamento st
    else if decision.action = some "consultar" then
      execute_consulta search decision.consulta st
    else
      { replies := [Msg.naoEntendi], calls := [], state := st }

/-- `handle_messages` (`agente.py` lines 341-398): the awaiting-title
check, then the Gemini dispatch. -/
def handle_messages (isFree : Int → Int → Bool)
    (criarLink : String → Int → Int → String)
    (search : String → List (String × String))
    (gemini : String → Option Decision)
    (full_message : String) (st : Option ContextData) : TurnResult :=
  match st with
  | some context_data =>
    if context_data.action = some "awaiting_title" then
      let summary := full_message
      let chosen_iso_time := context_data.chosen_time_iso
      let chosen_end_dt := chosen_iso_time + 60
      let link := criarLink summary chosen_iso_time chosen_end_dt
      { replies := [Msg.agendamentoConfirmado summary chosen_iso_time link],
        calls := [CalCall.create summary chosen_iso_time chosen_end_dt],
        state := none }
    else despacha_gemini isFree criarLink search gemini full_message st
  | none => despacha_gemini isFree criarLink search gemini full_message st

/-- Dispatch of one non-command text message, per the handler registration
in `agente.py` lines 403-417 and the Telegram `Application` dispatch rule:
within one handler group (both `MessageHandler`s are in the default group
0) only the FIRST handler whose filter matches the update runs; callback
return values are never consulted for fall-through.  So a message matching
`^\d+$` is consumed by `handle_follow_up` alone, every other text message
by `handle_messages` alone. -/
def process_update (isFree : Int → Int → Bool)
    (criarLink : String → Int → Int → String)
    (search : String → List (String × String))
    (gemini : String → Option Decision)
    (text : String) (st : Option ContextData) : TurnResult :=
  if regex_digitos text = true then
    (handle_follow_up isFree criarLink text st).2
  else
    handle_messages isFree criarLink search gemini text st

/-- Fixed-duration shape of a collaborator call: every timed interval is
exactly 60 minutes. -/
def call_dur_ok : CalCall → Prop
  | CalCall.checkFree inicio fim => fim = inicio + 60
  | CalCall.create _ inicio fim => fim = inicio + 60
  | CalCall.search _ => True

instance : DecidablePred call_dur_ok := fun c => by
  cases c <;> simp [call_dur_ok] <;> infer_instance

/-! ## Helper lemmas -/

/-- `Char.ofNat` round-trips `toNat` on ASCII code points. -/
theorem char_toNat_ofNat (n : Nat) (h : n < 128) : (Char.ofNat n).toNat = n := by
  have hv : n.isValidChar := Or.inl (by omega)
  rw [Char.ofNat, dif_pos hv]
  simp [Char.ofNatAux, Char.toNat, UInt32.toNat, UInt32.ofNat']

/-- The labels of a built suggestion map are the decimal strings of
`1 .. length`, in order. -/
theorem monta_sugestoes_fst (l : List Int) :
    (monta_sugestoes l).map Prod.fst =
      (List.range l.length).map (fun i => toString (i + 1)) := by
  rw [monta_sugestoes, List.map_map, ← List.enum_map_fst l, List.map_map]
  rfl

/-- `sugerir_horarios` queries exactly the +30, +60, +90 candidates, in
that order, each over a 60-minute interval. -/
theorem sugerir_calls_eq (isFree : Int → Int → Bool) (s e : Int) :
    (sugerir_horarios isFree s e).1 =
      [CalCall.checkFree (s + 30) (s + 30 + 60),
       CalCall.checkFree (s + 60) (s + 60 + 60),
       CalCall.checkFree (s + 90) (s + 90 + 60)] := rfl

/-- The suggestions kept by `sugerir_horarios` are exactly the free
candidates, in candidate order. -/
theorem sugerir_filter_eq (isFree : Int → Int → Bool) (s e : Int) :
    (sugerir_horarios isFree s e).2 =
      List.filter (fun x => isFree x (x + 60)) [s + 30, s + 60, s + 90] := by
  cases h30 : isFree (s + 30) (s + 30 + 60) <;>
    cases h60 : isFree (s + 60) (s + 60 + 60) <;>
      cases h90 : isFree (s + 90) (s + 90 + 60) <;>
        simp [sugerir_horarios, sugerir_horarios_loop, List.filter, h30, h60, h90]

/-- The kept suggestions are in strictly ascending start order. -/
theorem sugerir_pairwise (isFree : Int → Int → Bool) (s e : Int) :
    List.Pairwise (· < ·) (sugerir_horarios isFree s e).2 := by
  rw [sugerir_filter_eq]
  apply List.Pairwise.filter
  simp [List.pairwise_cons]

/-- Every free/busy call issued by `sugerir_horarios` has a 60-minute
interval. -/
theorem dur_sugerir (isFree : Int → Int → Bool) (s e : Int) :
    ∀ c ∈ (sugerir_horarios isFree s e).1, call_dur_ok c := by
  intro c hc
  rw [sugerir_calls_eq] at hc
  simp only [List.mem_cons, List.not_mem_nil, or_false] at hc
  rcases hc with h | h | h <;> subst h <;> simp [call_dur_ok]

/-- Every collaborator call issued by `execute_agendamento` has a
60-minute interval. -/
theorem dur_execute_agendamento (isFree : Int → Int → Bool)
    (criarLink : String → Int → Int → String)
    (ent : Option Entidades) (st : Option ContextData) :
    ∀ c ∈ (execute_agendamento isFree criarLink ent st).calls, call_dur_ok c := by
  rcases hv : valida_agendamento ent with - | ⟨resumo, inicio⟩
  · simp [execute_agendamento, hv]
  · by_cases hf : isFree inicio (inicio + 60) = true
    · simp [execute_agendamento, hv, hf, call_dur_ok]
    · rcases hs : (sugerir_horarios isFree inicio (inicio + 60)).2 with - | ⟨x, xs⟩ <;>
      · intro c hc
        simp only [execute_agendamento, hv, hf, hs, Bool.false_eq_true, if_false,
          List.mem_cons] at hc
        rcases hc with h | h
        · subst h; simp [call_dur_ok]
        · exact dur_sugerir isFree inicio (inicio + 60) c h

/-- Every collaborator call issued by `execute_verificacao` has a
60-minute interval. -/
theorem dur_execute_verificacao (isFree : Int → Int → Bool)
    (criarLink : String → Int → Int → String)
    (ent : Option Entidades) (st : Option ContextData) :
    ∀ c ∈ (execute_verificacao isFree criarLink ent st).calls, call_dur_ok c := by
  rcases hv : valida_verificacao ent with - | inicio
  · simp [execute_verificacao, hv]
  · by_cases hf : isFree inicio (inicio + 60) = true
    · simp [execute_verificacao, hv, hf, call_dur_ok]
    · rcases hs : (sugerir_horarios isFree inicio (inicio + 60)).2 with - | ⟨x, xs⟩ <;>
      · intro c hc
        simp only [execute_verificacao, hv, hf, hs, Bool.false_eq_true, if_false,
          List.mem_cons] at hc
        rcases hc with h | h
        · subst h; simp [call_dur_ok]
        · exact dur_sugerir isFree inicio (inicio + 60) c h

/-- Every collaborator call issued by `execute_consulta` is an untimed
keyword search. -/
theorem dur_execute_consulta (search : String → List (String × String))
    (keyword : Option String) (st : Option ContextData) :
    ∀ c ∈ (execute_consulta search keyword st).calls, call_dur_ok c := by
  rcases keyword with - | kw
  · simp [execute_consulta]
  · by_cases hk : kw = ""
    · simp [execute_consulta, hk]
    · rcases hres : search (normalize_keyword kw) with - | ⟨e, es⟩ <;>
        simp [execute_consulta, obter_eventos_por_palavra_chave, hk, hres, call_dur_ok]

/-- Every collaborator call issued by `handle_follow_up` has a 60-minute
interval. -/
theorem dur_handle_follow_up (isFree : Int → Int → Bool)
    (criarLink : String → Int → Int → String)
    (text : String) (st : Option ContextData) :
    ∀ c ∈ (handle_follow_up isFree criarLink text st).2.calls, call_dur_ok c := by
  rcases st with - | ctx
  · simp [handle_follow_up]
  · by_cases hcond : ctx.action = some "awaiting_time_selection" ∧
      py_isdigit (py_strip text) = true
    · rcases hl : ctx.suggestions.lookup (py_strip text) with - | chosen
      · simp [handle_follow_up, hcond, hl]
      · rcases hsum : ctx.summary with - | s <;>
          simp [handle_follow_up, hcond, hl, hsum, call_dur_ok]
    · simp [handle_follow_up, hcond]

/-- Every collaborator call issued by the Gemini dispatch has a
60-minute interval. -/
theorem dur_despacha_gemini (isFree : Int → Int → Bool)
    (criarLink : String → Int → Int → String)
    (search : String → List (String × String))
    (gemini : String → Option Decision)
    (msg : String) (st : Option ContextData) :
    ∀ c ∈ (despacha_gemini isFree criarLink search gemini msg st).calls,
      call_dur_ok c := by
  rcases hg : gemini msg with - | d
  · simp [despacha_gemini, hg]
  · by_cases ha : d.action = some "agendar"
    · simpa [despacha_gemini, hg, ha] using
        dur_execute_agendamento isFree criarLink d.agendamento st
    · by_cases hv : d.action = some "verificar"
      · simpa [despacha_gemini, hg, ha, hv] using
          dur_execute_verificacao isFree criarLink d.agendamento st
      · by_cases hc : d.action = some "consultar"
        · simpa [despacha_gemini, hg, ha, hv, hc] using
            dur_execute_consulta search d.consulta st
        · simp [despacha_gemini, hg, ha, hv, hc]

/-- Every collaborator call issued by `handle_messages` has a 60-minute
interval. -/
theorem dur_handle_messages (isFree : Int → Int → Bool)
    (criarLink : String → Int → Int → String)
    (search : String → List (String × String))
    (gemini : String → Option Decision)
    (msg : String) (st : Option ContextData) :
    ∀ c ∈ (handle_messages isFree criarLink search gemini msg st).calls,
      call_dur_ok c := by
  rcases st with - | ctx
  · simpa [handle_messages] using
      dur_despacha_gemini isFree criarLink search gemini msg none
  · by_cases ht : ctx.action = some "awaiting_title"
    · simp [handle_messages, ht, call_dur_ok]
    · simpa [handle_messages, ht] using
        dur_despacha_gemini isFree criarLink search gemini msg (some ctx)

/-! ## Claim theorems -/

/-- C1: the claim says a valid numeric selection after a schedule-originated
negotiation (stored context has `summary` and a suggestion map) creates the
event at the chosen slot, clears the state and confirms.  Evaluating the
code at such an input shows the reply is silently dropped instead: the digit
message is consumed by `handle_follow_up` alone (first matching handler of
the group), whose guard requires `action == 'awaiting_time_selection'`,
a key `execute_agendamento` never stores, so no event is created, no reply
is sent and the state is left in place. -/
theorem C1_selecao_apos_agendamento_ignorada :
    process_update (fun _ _ => true) (fun _ _ _ => "link") (fun _ => [])
      (fun _ => none) "2"
      (some (ctx_agendamento "Almoco" [("1", 780), ("2", 810)])) =
    { replies := [], calls := [],
      state := some (ctx_agendamento "Almoco" [("1", 780), ("2", 810)]) } := rfl

/-- C2: for a busy target slot, the suggestion operation checks the +30,
+60, +90 offsets in that order, keeps exactly the candidates whose free/busy
check returns true, in ascending offset order, and the labels built over
them are the dense decimal strings `1 .. N`. -/
theorem C2_sugestoes_livres_ordenadas_rotulos_densos (isFree : Int → Int → Bool)
    (inicio fim : Int)
    (hocupado : isFree inicio (inicio + 60) = false) :
    (sugerir_horarios isFree inicio fim).1 =
      [CalCall.checkFree (inicio + 30) (inicio + 30 + 60),
       CalCall.checkFree (inicio + 60) (inicio + 60 + 60),
       CalCall.checkFree (inicio + 90) (inicio + 90 + 60)] ∧
    (sugerir_horarios isFree inicio fim).2 =
      List.filter (fun x => isFree x (x + 60)) [inicio + 30, inicio + 60, inicio + 90] ∧
    List.Pairwise (· < ·) (sugerir_horarios isFree inicio fim).2 ∧
    (monta_sugestoes (sugerir_horarios isFree inicio fim).2).map Prod.fst =
      (List.range (sugerir_horarios isFree inicio fim).2.length).map
        (fun i => toString (i + 1)) :=
  ⟨sugerir_calls_eq isFree inicio fim, sugerir_filter_eq isFree inicio fim,
   sugerir_pairwise isFree inicio fim, monta_sugestoes_fst _⟩

/-- Witness for C2 at a concrete busy slot with +30 busy, +60 free,
+90 free. -/
theorem C2_sugestoes_livres_ordenadas_rotulos_densos_witness :
    ((fun (s _ : Int) => decide (s = 160 ∨ s = 190)) 100 (100 + 60) = false) ∧
    ((sugerir_horarios (fun (s _ : Int) => decide (s = 160 ∨ s = 190)) 100 160).1 =
      [CalCall.checkFree (100 + 30) (100 + 30 + 60),
       CalCall.checkFree (100 + 60) (100 + 60 + 60),
       CalCall.checkFree (100 + 90) (100 + 90 + 60)] ∧
    (sugerir_horarios (fun (s _ : Int) => decide (s = 160 ∨ s = 190)) 100 160).2 =
      List.filter (fun x => (fun (s _ : Int) => decide (s = 160 ∨ s = 190)) x (x + 60))
        [100 + 30, 100 + 60, 100 + 90] ∧
    List.Pairwise (· < ·)
      (sugerir_horarios (fun (s _ : Int) => decide (s = 160 ∨ s = 190)) 100 160).2 ∧
    (monta_sugestoes
        (sugerir_horarios (fun (s _ : Int) => decide (s = 160 ∨ s = 190)) 100 160).2).map
        Prod.fst =
      (List.range
          (sugerir_horarios (fun (s _ : Int) =>
            decide (s = 160 ∨ s = 190)) 100 160).2.length).map
        (fun i => toString (i + 1))) :=
  ⟨by decide,
   C2_sugestoes_livres_ordenadas_rotulos_densos
     (fun (s _ : Int) => decide (s = 160 ∨ s = 190)) 100 160 (by decide)⟩

/-- C3: the claim says any message received while `awaiting_title` becomes
the event title, digits-only messages included.  Evaluating the code at a
digits-only message in that state shows it is silently dropped instead: the
registration regex routes it to `handle_follow_up` alone, whose guard
requires `action == 'awaiting_time_selection'`, and the dispatcher never
falls through to `handle_messages`, so no event is created and no reply is
sent. -/
theorem C3_titulo_somente_digitos_descartado :
    process_update (fun _ _ => true) (fun _ _ _ => "link") (fun _ => [])
      (fun _ => none) "123" (some (ctx_awaiting_title 780)) =
    { replies := [], calls := [], state := some (ctx_awaiting_title 780) } := rfl

/-- C4: the claim says an out-of-range numeric selection in any
`AwaitingSlotSelection` state leaves the state unchanged and sends an
invalid-option reply.  Evaluating the code at a schedule-originated
`AwaitingSlotSelection` state (stored without the `'action'` marker) shows
the state is indeed unchanged but no reply at all is sent: the
`handle_follow_up` guard fails before the invalid-option branch can run. -/
theorem C4_opcao_invalida_apos_agendamento_sem_resposta :
    process_update (fun _ _ => true) (fun _ _ _ => "link") (fun _ => [])
      (fun _ => none) "9"
      (some (ctx_agendamento "Reuniao" [("1", 780), ("2", 810)])) =
    { replies := [], calls := [],
      state := some (ctx_agendamento "Reuniao" [("1", 780), ("2", 810)]) } := rfl

/-- C5: in a verify-originated `AwaitingSlotSelection` state (stored with
the `awaiting_time_selection` marker and no summary), a digits-only reply
that is a key of the stored suggestion map moves the state to
`awaiting_title` holding exactly the chosen slot, discards the suggestion
map, makes no collaborator call, and replies asking for a title. -/
theorem C5_selecao_valida_apos_verificacao_pede_titulo (isFree : Int → Int → Bool)
    (criarLink : String → Int → Int → String)
    (search : String → List (String × String))
    (gemini : String → Option Decision)
    (text : String) (sm : List (String × Int)) (chosen : Int)
    (hregex : regex_digitos text = true)
    (hdigit : py_isdigit (py_strip text) = true)
    (hlookup : sm.lookup (py_strip text) = some chosen) :
    process_update isFree criarLink search gemini text (some (ctx_verificacao sm)) =
      { replies := [Msg.pedirTitulo], calls := [],
        state := some (ctx_awaiting_title chosen) } := by
  unfold process_update
  rw [if_pos hregex]
  unfold handle_follow_up
  simp [ctx_verificacao, hdigit, hlookup]

/-- Witness for C5: reply "2" against suggestion labels {1, 2}. -/
theorem C5_selecao_valida_apos_verificacao_pede_titulo_witness :
    regex_digitos "2" = true ∧ py_isdigit (py_strip "2") = true ∧
    List.lookup (py_strip "2") [("1", (780 : Int)), ("2", 810)] = some 810 ∧
    process_update (fun _ _ => true) (fun _ _ _ => "link") (fun _ => [])
        (fun _ => none) "2" (some (ctx_verificacao [("1", 780), ("2", 810)])) =
      { replies := [Msg.pedirTitulo], calls := [],
        state := some (ctx_awaiting_title 810) } :=
  ⟨by decide, by decide, by decide,
   C5_selecao_valida_apos_verificacao_pede_titulo
     (fun _ _ => true) (fun _ _ _ => "link") (fun _ => []) (fun _ => none)
     "2" [("1", 780), ("2", 810)] 810 (by decide) (by decide) (by decide)⟩

/-- C6: every timed interval this core passes to the calendar collaborator
(free/busy checks, including each offset candidate inside the suggestion
loop, and event creations) spans exactly 60 minutes, for every inbound
message, stored state, classifier decision and collaborator behaviour. -/
theorem C6_duracao_de_todo_intervalo_60_minutos (isFree : Int → Int → Bool)
    (criarLink : String → Int → Int → String)
    (search : String → List (String × String))
    (gemini : String → Option Decision)
    (text : String) (st : Option ContextData) :
    ∀ c ∈ (process_update isFree criarLink search gemini text st).calls,
      call_dur_ok c := by
  by_cases hr : regex_digitos text = true
  · simpa [process_update, hr] using dur_handle_follow_up isFree criarLink text st
  · simpa [process_update, hr] using
      dur_handle_messages isFree criarLink search gemini text st

/-- Witness for C6 on a concrete schedule request whose slot is free. -/
theorem C6_duracao_de_todo_intervalo_60_minutos_witness :
    CalCall.checkFree 1470 1530 ∈
      (process_update (fun _ _ => true) (fun _ _ _ => "link") (fun _ => [])
        (fun _ => some ⟨some "agendar", some ⟨some "T", some "1-1-1", some "0:30"⟩, none⟩)
        "x" none).calls ∧
    call_dur_ok (CalCall.checkFree 1470 1530) :=
  ⟨by decide,
   C6_duracao_de_todo_intervalo_60_minutos (fun _ _ => true) (fun _ _ _ => "link")
     (fun _ => [])
     (fun _ => some ⟨some "agendar", some ⟨some "T", some "1-1-1", some "0:30"⟩, none⟩)
     "x" none (CalCall.checkFree 1470 1530) (by decide)⟩

/-- C7: the claim says no message is ever consumed without an action or a
user-visible reply.  Evaluating the code at a digits-only message from a
user with no stored context shows the message is consumed with no reply and
no action: the registration regex routes it to `handle_follow_up` alone,
which returns early on missing context, and the dispatcher never falls
through to `handle_messages`. -/
theorem C7_digito_sem_contexto_consumido_em_silencio :
    process_update (fun _ _ => true) (fun _ _ _ => "link") (fun _ => [])
      (fun _ => none) "1" none =
    { replies := [], calls := [], state := none } := rfl

/-- C8: whenever the validation/parse step of a fresh schedule or verify
request fails (missing or empty required fields, unparsable date or time),
the whole request answers with the conversion-error message, makes no
calendar-collaborator call, and leaves the stored state untouched. -/
theorem C8_falha_de_parse_erro_visivel_sem_chamadas (isFree : Int → Int → Bool)
    (criarLink : String → Int → Int → String)
    (ent1 ent2 : Option Entidades) (st : Option ContextData)
    (h1 : valida_agendamento ent1 = none)
    (h2 : valida_verificacao ent2 = none) :
    execute_agendamento isFree criarLink ent1 st =
      { replies := [Msg.erroConversaoAgendamento], calls := [], state := st } ∧
    execute_verificacao isFree criarLink ent2 st =
      { replies := [Msg.erroConversaoVerificacao], calls := [], state := st } := by
  constructor
  · unfold execute_agendamento
    rw [h1]
  · unfold execute_verificacao
    rw [h2]

/-- Witness for C8: an invalid calendar date (Feb 30) and an invalid hour
(25:00). -/
theorem C8_falha_de_parse_erro_visivel_sem_chamadas_witness :
    valida_agendamento (some ⟨some "Almoco", some "2025-02-30", some "13:00"⟩) = none ∧
    valida_verificacao (some ⟨none, some "2025-03-10", some "25:00"⟩) = none ∧
    (execute_agendamento (fun _ _ => true) (fun _ _ _ => "link")
        (some ⟨some "Almoco", some "2025-02-30", some "13:00"⟩) none =
      { replies := [Msg.erroConversaoAgendamento], calls := [], state := none } ∧
    execute_verificacao (fun _ _ => true) (fun _ _ _ => "link")
        (some ⟨none, some "2025-03-10", some "25:00"⟩) none =
      { replies := [Msg.erroConversaoVerificacao], calls := [], state := none }) :=
  ⟨by decide, by decide,
   C8_falha_de_parse_erro_visivel_sem_chamadas (fun _ _ => true) (fun _ _ _ => "link")
     _ _ none (by decide) (by decide)⟩

/-- C9: a nonempty query keyword is normalized (case-folded,
diacritics-stripped to ASCII) before the single search call, whose argument
contains no non-ASCII and no uppercase ASCII character; a missing or empty
keyword answers with the could-not-extract message and makes no
collaborator call. -/
theorem C9_consulta_normaliza_keyword_e_vazio_curto_circuita
    (search : String → List (String × String))
    (st : Option ContextData) (kw : String) (hkw : kw ≠ "") :
    (execute_consulta search (some kw) st).calls =
      [CalCall.search (normalize_keyword kw)] ∧
    (∀ c ∈ (normalize_keyword kw).toList,
      c.toNat < 128 ∧ ¬(65 ≤ c.toNat ∧ c.toNat ≤ 90)) ∧
    execute_consulta search none st =
      { replies := [Msg.semPalavraChave], calls := [], state := st } ∧
    execute_consulta search (some "") st =
      { replies := [Msg.semPalavraChave], calls := [], state := st } := by
  refine ⟨?_, ?_, rfl, rfl⟩
  · rcases hres : search (normalize_keyword kw) with - | ⟨e, es⟩ <;>
      simp [execute_consulta, obter_eventos_por_palavra_chave, hkw, hres]
  · intro c hc
    have hlist : (normalize_keyword kw).toList =
        ((kw.toList.flatMap nfd_decompose).filter
          (fun c => c.toNat < 128)).map ascii_lower := rfl
    rw [hlist] at hc
    simp only [List.mem_map] at hc
    obtain ⟨c', hc', rfl⟩ := hc
    simp only [List.mem_filter, decide_eq_true_eq] at hc'
    obtain ⟨-, hlt⟩ := hc'
    unfold ascii_lower
    by_cases h : 65 ≤ c'.toNat ∧ c'.toNat ≤ 90
    · rw [if_pos h]
      rw [char_toNat_ofNat _ (by omega)]
      omega
    · rw [if_neg h]
      omega

/-- Witness for C9 on the accented keyword "Almoço". -/
theorem C9_consulta_normaliza_keyword_e_vazio_curto_circuita_witness :
    ("Almoço" : String) ≠ "" ∧
    ((execute_consulta (fun _ => []) (some "Almoço") none).calls =
      [CalCall.search (normalize_keyword "Almoço")] ∧
    (∀ c ∈ (normalize_keyword "Almoço").toList,
      c.toNat < 128 ∧ ¬(65 ≤ c.toNat ∧ c.toNat ≤ 90)) ∧
    execute_consulta (fun _ => []) none none =
      { replies := [Msg.semPalavraChave], calls := [], state := none } ∧
    execute_consulta (fun _ => []) (some "") none =
      { replies := [Msg.semPalavraChave], calls := [], state := none }) :=
  ⟨by decide,
   C9_consulta_normaliza_keyword_e_vazio_curto_circuita (fun _ => [])
     none "Almoço" (by decide)⟩

/-- C10: the suggestion operation never reads its end-time argument — its
whole result (calls and suggestions) is identical for any two end values —
and every suggested start was checked free over exactly the interval
`[start, start + 60)`. -/
theorem C10_sugestao_independe_do_fim (isFree : Int → Int → Bool) (s e1 e2 : Int) :
    sugerir_horarios isFree s e1 = sugerir_horarios isFree s e2 ∧
    ∀ x ∈ (sugerir_horarios isFree s e1).2,
      isFree x (x + 60) = true ∧
      CalCall.checkFree x (x + 60) ∈ (sugerir_horarios isFree s e1).1 := by
  refine ⟨rfl, ?_⟩
  intro x hx
  rw [sugerir_filter_eq] at hx
  simp only [List.mem_filter, List.mem_cons, List.not_mem_nil, or_false] at hx
  obtain ⟨hmem, hfree⟩ := hx
  refine ⟨hfree, ?_⟩
  rw [sugerir_calls_eq]
  rcases hmem with h | h | h <;> subst h <;> simp

/-- Witness for C10 at a concrete oracle that frees only the +30 slot. -/
theorem C10_sugestao_independe_do_fim_witness :
    (130 : Int) ∈ (sugerir_horarios (fun (a _ : Int) => decide (a = 130)) 100 7).2 ∧
    ((fun (a _ : Int) => decide (a = 130)) 130 (130 + 60) = true ∧
      CalCall.checkFree 130 (130 + 60) ∈
        (sugerir_horarios (fun (a _ : Int) => decide (a = 130)) 100 7).1) :=
  ⟨by decide,
   (C10_sugestao_independe_do_fim (fun (a _ : Int) => decide (a = 130)) 100 7 99).2
     130 (by decide)⟩

/-- In a verify-originated `AwaitingSlotSelection` state (which does carry
the `awaiting_time_selection` marker), a digits-only reply that is not a
stored label gets the invalid-option reply and leaves the state — and so
the same suggestion map — unchanged (the behaviour C4 claims for every
`AwaitingSlotSelection` state; the schedule-originated states miss it). -/
theorem opcao_invalida_verificacao_estado_inalterado (isFree : Int → Int → Bool)
    (criarLink : String → Int → Int → String)
    (search : String → List (String × String))
    (gemini : String → Option Decision)
    (text : String) (sm : List (String × Int))
    (hregex : regex_digitos text = true)
    (hdigit : py_isdigit (py_strip text) = true)
    (hlookup : sm.lookup (py_strip text) = none) :
    process_update isFree criarLink search gemini text (some (ctx_verificacao sm)) =
      { replies := [Msg.opcaoInvalida], calls := [],
        state := some (ctx_verificacao sm) } := by
  unfold process_update
  rw [if_pos hregex]
  unfold handle_follow_up
  simp [ctx_verificacao, hdigit, hlookup]
